import Mathlib

/-!
Verification of the n3ds_smb SMB1 client against its specification.

The Python sources are shallowly embedded: byte strings become `List Nat`
(each element a byte value 0..255), Unicode strings become `List Nat` of
code points, fallible operations (struct.unpack bounds errors, bytes()
range errors, codec errors) become `Option`, where `none` models a raised
exception.  All definitions are transcribed from the repository sources,
file and line references given in the doc comments.
-/

set_option maxRecDepth 4096

/-! ## Byte-level primitives (struct.unpack_from / slicing semantics) -/

/-- Little-endian 16-bit value read at `off` (no bounds check; used only
under an explicit bounds guard, mirroring a checked `struct.unpack_from`). -/
def u16val (l : List Nat) (off : Nat) : Nat :=
  l.getD off 0 + 256 * l.getD (off + 1) 0

/-- Little-endian 32-bit value read at `off` (no bounds check). -/
def u32val (l : List Nat) (off : Nat) : Nat :=
  l.getD off 0 + 256 * l.getD (off + 1) 0 + 65536 * l.getD (off + 2) 0 +
    16777216 * l.getD (off + 3) 0

/-- Little-endian 64-bit value read at `off` (no bounds check). -/
def u64val (l : List Nat) (off : Nat) : Nat :=
  u32val l off + 4294967296 * u32val l (off + 4)

/-- Model of `struct.unpack_from("<H", l, off)`: `none` models the
`struct.error` raised when fewer than 2 bytes remain. -/
def readU16 (l : List Nat) (off : Nat) : Option Nat :=
  if off + 2 ≤ l.length then some (u16val l off) else none

/-- Model of `struct.unpack_from("<2H", l, off)` returning the two 16-bit
fields; `none` models the `struct.error` when fewer than 4 bytes remain. -/
def read2x16 (l : List Nat) (off : Nat) : Option (Nat × Nat) :=
  if off + 4 ≤ l.length then some (u16val l off, u16val l (off + 2)) else none

/-- Model of `struct.unpack_from("<I", l, off)`. -/
def readU32 (l : List Nat) (off : Nat) : Option Nat :=
  if off + 4 ≤ l.length then some (u32val l off) else none

/-- Model of `struct.unpack_from("<Q", l, off)`. -/
def readU64 (l : List Nat) (off : Nat) : Option Nat :=
  if off + 8 ≤ l.length then some (u64val l off) else none

/-- Model of `struct.unpack_from("<i", l, off)`: signed 32-bit read, as
used by `disk_info` for the sectors-per-unit field. -/
def readI32 (l : List Nat) (off : Nat) : Option Int :=
  if off + 4 ≤ l.length then
    some (if u32val l off < 2147483648 then (u32val l off : Int)
          else (u32val l off : Int) - 4294967296)
  else none

/-- Python slice `l[start : start + len]` (clamping, never raising). -/
def pySlice (l : List Nat) (start len : Nat) : List Nat :=
  (l.drop start).take len

/-! ## C1: the fixed SPNEGO/NTLMSSP Type-1 security blob

Transcribed from `src/n3ds_smb/transport.py` lines 8-12 (`AUTH_BLOB`,
given there as a hex string) and from the byte enumeration in section 6
of the specification. -/

/-- `AUTH_BLOB` from transport.py lines 8-12, decoding its hex literal. -/
def AUTH_BLOB : List Nat :=
  [0x60, 0x40, 0x06, 0x06, 0x2b, 0x06, 0x01, 0x05, 0x05, 0x02,
   0xa0, 0x36, 0x30, 0x34, 0xa0, 0x0e, 0x30, 0x0c, 0x06, 0x0a,
   0x2b, 0x06, 0x01, 0x04, 0x01, 0x82, 0x37, 0x02, 0x02, 0x0a,
   0xa2, 0x22, 0x04, 0x20, 0x4e, 0x54, 0x4c, 0x4d, 0x53, 0x53,
   0x50, 0x00, 0x01, 0x00, 0x00, 0x00, 0x05, 0x02, 0x08, 0xa0,
   0x00, 0x00, 0x00, 0x00, 0x00, 0x00, 0x00, 0x00, 0x00, 0x00,
   0x00, 0x00, 0x00, 0x00, 0x00, 0x00]

/-- The byte string enumerated in section 6 of the specification
("Fixed NTLMSSP Type-1 blob (64 bytes) used verbatim in session-setup"),
transcribed from the space-separated hex enumeration in the spec text. -/
def specSection6Blob : List Nat :=
  [0x60, 0x40, 0x06, 0x06, 0x2b, 0x06, 0x01, 0x05, 0x05, 0x02,
   0xa0, 0x36, 0x30, 0x34, 0xa0, 0x0e, 0x30, 0x0c, 0x06, 0x0a,
   0x2b, 0x06, 0x01, 0x04, 0x01, 0x82, 0x37, 0x02, 0x02, 0x0a,
   0xa2, 0x22, 0x04, 0x20, 0x4e, 0x54, 0x4c, 0x4d, 0x53, 0x53,
   0x50, 0x00, 0x01, 0x00, 0x00, 0x00, 0x05, 0x02, 0x08, 0xa0,
   0x00, 0x00, 0x00, 0x00, 0x00, 0x00, 0x00, 0x00, 0x00, 0x00,
   0x00, 0x00, 0x00, 0x00, 0x00, 0x00]

/-- ASCII bytes of `"Unix\0Samba\0"`, the native OS / LAN-manager strings
appended after the blob in `N3DSClient._auth` (client.py line 70). -/
def unixSambaBytes : List Nat :=
  [0x55, 0x6e, 0x69, 0x78, 0x00, 0x53, 0x61, 0x6d, 0x62, 0x61, 0x00]

/-- Byte block of the session-setup AndX (0x73) request built by
`N3DSClient._auth` (client.py line 70): `AUTH_BLOB + b"Unix\0Samba\0"`. -/
def authBdata : List Nat := AUTH_BLOB ++ unixSambaBytes

/-! ## C2: NetBIOS first-level name encoding

Transcribed from `src/n3ds_smb/transport.py` lines 15-18 (`nb_name`).
The input string is embedded as its list of Unicode code points.  The
library call `name.upper()` performs full Unicode case mapping (it can
change code points outside ASCII and can even change the length, as for
U+00DF); it is therefore kept ABSTRACT, as an explicit whole-string
parameter `upper` of the embedding, and every theorem below holds for
all choices of that parameter - in particular for the real mapping.
`none` models the `ValueError` that Python `bytes(...)` raises when a
generated value falls outside 0..255. -/

/-- The 16 code points `name.upper()[:15].ljust(15) + chr(suffix)` from
transport.py line 17, with the `str.upper()` library call passed in as
the parameter `upper`. -/
def nbPadded (upper : List Nat → List Nat) (name : List Nat) (suffix : Nat) : List Nat :=
  let u := (upper name).take 15
  (u ++ List.replicate (15 - u.length) 32) ++ [suffix]

/-- Nibble expansion from transport.py line 18: each code point `c`
contributes `(c >>> 4) + 0x41` and `(c &&& 0xF) + 0x41`. -/
def nbEncode (p : List Nat) : List Nat :=
  p.flatMap fun c => [(c >>> 4) + 0x41, (c &&& 0xF) + 0x41]

/-- `nb_name` from transport.py lines 15-18, parameterized by the
`str.upper()` mapping.  `bytes(...)` raises `ValueError` when any
produced value exceeds 255; `none` models that. -/
def nb_name (upper : List Nat → List Nat) (name : List Nat) (suffix : Nat) :
    Option (List Nat) :=
  let bs := nbEncode (nbPadded upper name suffix)
  if bs.all (fun b => b < 256) then some bs else none

/-! ## C3: multiplex-id generator

Transcribed from `src/n3ds_smb/transport.py` lines 59-65: the transport
is constructed with `_mid = 0` and each call executes
`_mid = (_mid % 0xFFFF) + 1; return _mid`. -/

/-- One step of `SMBTransport.mid` (transport.py line 64). -/
def midStep (m : Nat) : Nat := m % 0xFFFF + 1

/-- Internal `_mid` state after `n` calls on a freshly constructed
transport (`_mid = 0` from `__init__`, transport.py line 61); the value
returned by the n-th call is `midState n`. -/
def midState : Nat → Nat
  | 0 => 0
  | n + 1 => midStep (midState n)

/-- Closed form of the mid counter: the (n+1)-th call returns
`n % 0xFFFF + 1`. -/
theorem midState_closed (n : Nat) : midState (n + 1) = n % 0xFFFF + 1 := by
  induction n with
  | zero => rfl
  | succ k ih =>
    show midStep (midState (k + 1)) = (k + 1) % 0xFFFF + 1
    rw [ih]
    show (k % 0xFFFF + 1) % 0xFFFF + 1 = (k + 1) % 0xFFFF + 1
    omega

/-- Distinct residues helper: two naturals strictly less than 0xFFFF
apart have distinct residues modulo 0xFFFF. -/
theorem mod_ffff_ne (a b : Nat) (hab : a < b) (hlt : b - a < 0xFFFF) :
    a % 0xFFFF ≠ b % 0xFFFF := by
  intro h
  have hdvd : (0xFFFF : Nat) ∣ b - a := (Nat.modEq_iff_dvd' (Nat.le_of_lt hab)).mp h
  have hz : b - a = 0 := Nat.eq_zero_of_dvd_of_lt hdvd hlt
  omega

/-- C3.  From a fresh transport every mid value lies in [1, 0xFFFF]
(never 0); any k < 2^16 consecutive calls return pairwise distinct
values; and the call right after one that returned 0xFFFF returns 1. -/
theorem mid_generator_ok (n i j k : Nat) :
    (1 ≤ midState (n + 1) ∧ midState (n + 1) ≤ 0xFFFF) ∧
    (i < j → j < k → k < 65536 → midState (n + 1 + i) ≠ midState (n + 1 + j)) ∧
    (midState (n + 1) = 0xFFFF → midState (n + 2) = 1) := by
  refine ⟨?_, ?_, ?_⟩
  · rw [midState_closed]
    have := Nat.mod_lt n (show 0 < 0xFFFF by norm_num)
    omega
  · intro hij hjk hk
    have h1 : n + 1 + i = (n + i) + 1 := by omega
    have h2 : n + 1 + j = (n + j) + 1 := by omega
    rw [h1, h2, midState_closed, midState_closed]
    have hne : (n + i) % 0xFFFF ≠ (n + j) % 0xFFFF := by
      apply mod_ffff_ne
      · omega
      · omega
    omega
  · intro h
    rw [midState_closed] at h
    show midState ((n + 1) + 1) = 1
    rw [midState_closed]
    have : (n + 1) % 0xFFFF = (n % 0xFFFF + 1 % 0xFFFF) % 0xFFFF := Nat.add_mod n 1 0xFFFF
    omega

/-! ## C4: read AndX result extraction and the get_file loop

Transcribed from `src/n3ds_smb/client.py` lines 112-130 (`read`) and
169-180 (`get_file`).  A server response is embedded as the pair of the
parsed NT status and the raw response bytes. -/

/-- Post-exchange part of `N3DSClient.read` (client.py lines 126-130):
non-zero status returns empty bytes; otherwise `data_length` and
`data_offset` are unpacked at offset 43 and the slice
`resp[doff : doff + dlen]` is returned.  `none` models the unpack
exception on a response shorter than 47 bytes. -/
def readResult (status : Nat) (resp : List Nat) : Option (List Nat) :=
  if status ≠ 0 then some []
  else
    match read2x16 resp 43 with
    | none => none
    | some (dlen, doff) => some (pySlice resp doff dlen)

/-- The `get_file` download loop (client.py lines 172-177), driven by an
oracle list of server responses consumed one per iteration.  The loop
accumulates the running total of chunk lengths and stops at the first
empty chunk; `none` on an exhausted oracle (the real loop would issue a
further request) or on a read exception. -/
def getFileLoop : List (Nat × List Nat) → Nat → Option Nat
  | [], _ => none
  | (st, resp) :: rest, total =>
    match readResult st resp with
    | none => none
    | some chunk =>
      if chunk = [] then some total else getFileLoop rest (total + chunk.length)

/-! ## Theorems for C1 -/

/-- C1 counterexample.  The claim calls the blob "64-byte"; the blob the
code sends (and the byte string section 6 enumerates) has 66 bytes. -/
theorem auth_blob_not_64_bytes : AUTH_BLOB.length ≠ 64 := by decide

/-- C1 (amended).  The security blob sent in the session-setup AndX
request is the fixed 66-byte SPNEGO-wrapped NTLMSSP Type-1 token,
bit-for-bit equal to the byte string enumerated in section 6 of the
specification; the request byte block is exactly that blob followed by
the native OS / LAN-manager strings. -/
theorem auth_blob_matches_spec :
    AUTH_BLOB = specSection6Blob ∧ AUTH_BLOB.length = 66 ∧
    authBdata = AUTH_BLOB ++ unixSambaBytes := by
  refine ⟨by decide, by decide, rfl⟩

/-! ## Theorems for C2 -/

/-- C2 counterexample.  `nb_name` can raise: U+3042 is a caseless code
point, so Python `str.upper()` maps the one-character string to itself
and the embedding at `upper = id` computes exactly the real call
`nb_name("\u3042")`; the generated high-nibble value is
0x304 + 0x41 = 837 > 255, so Python `bytes(...)` raises `ValueError`. -/
theorem nb_name_raises_on_u3042 : nb_name (fun s => s) [0x3042] 0x20 = none := by
  decide

/-- Length of the nibble expansion: two output bytes per input code
point. -/
theorem nbEncode_length (p : List Nat) : (nbEncode p).length = 2 * p.length := by
  induction p with
  | nil => rfl
  | cons c rest ih =>
    show (((c >>> 4) + 0x41) :: ((c &&& 0xF) + 0x41) :: nbEncode rest).length = _
    simp [ih]
    omega

/-- Bytes produced by the nibble expansion of code points below 3056 all
fit in a byte. -/
theorem nbEncode_lt_256 (p : List Nat) (h : ∀ c ∈ p, c < 3056) :
    ∀ b ∈ nbEncode p, b < 256 := by
  induction p with
  | nil => intro b hb; cases hb
  | cons c rest ih =>
    intro b hb
    have hc : c < 3056 := h c (List.mem_cons_self c rest)
    have hrest : ∀ x ∈ rest, x < 3056 := fun x hx => h x (List.mem_cons_of_mem c hx)
    have hexp : nbEncode (c :: rest) =
        ((c >>> 4) + 0x41) :: ((c &&& 0xF) + 0x41) :: nbEncode rest := rfl
    rw [hexp] at hb
    rcases hb with _ | ⟨_, hb2⟩
    · have : c >>> 4 = c / 16 := Nat.shiftRight_eq_div_pow c 4 ▸ rfl
      omega
    · rcases hb2 with _ | ⟨_, hb3⟩
      · have : c &&& 0xF < 16 := Nat.and_lt_two_pow c (show 15 < 2 ^ 4 by norm_num)
        omega
      · exact ih hrest b hb3

/-- C2 (amended).  For every upper-casing map and every input string
such that the first 15 characters of its uppercased form have code
points below 3056 (in particular every ASCII input under the real
`str.upper()`), `nb_name` returns exactly 32 bytes: the
nibble-plus-0x41 expansion of the uppercased, truncated, space-padded
15 characters followed by the suffix 0x20.  Because `upper` is
universally quantified, the statement covers Python full Unicode case
mapping; the hypothesis constrains the mapped output itself, so inputs
that only become out-of-range after upper-casing (such as U+0265, whose
uppercase is U+A78D = 42893) are excluded by the hypothesis, exactly as
they make the real `nb_name` raise. -/
theorem nb_name_ok (upper : List Nat → List Nat) (name : List Nat)
    (h : ∀ c ∈ (upper name).take 15, c < 3056) :
    ∃ bs, nb_name upper name 0x20 = some bs ∧ bs.length = 32 ∧
      bs = nbEncode (nbPadded upper name 0x20) := by
  have hpadlen : (nbPadded upper name 0x20).length = 16 := by
    show ((_ ++ List.replicate _ 32) ++ [(0x20 : Nat)]).length = 16
    have htake : ((upper name).take 15).length ≤ 15 := by
      simp
    simp [List.length_append]
    omega
  have hmem : ∀ c ∈ nbPadded upper name 0x20, c < 3056 := by
    intro c hc
    unfold nbPadded at hc
    simp only [List.mem_append, List.mem_replicate, List.mem_singleton] at hc
    rcases hc with (hc | hc) | hc
    · exact h c hc
    · omega
    · omega
  have hall : (nbEncode (nbPadded upper name 0x20)).all (fun b => b < 256) = true := by
    rw [List.all_eq_true]
    intro b hb
    simpa using nbEncode_lt_256 (nbPadded upper name 0x20) hmem b hb
  refine ⟨nbEncode (nbPadded upper name 0x20), ?_, ?_, rfl⟩
  · unfold nb_name
    simp only [hall, if_true]
  · rw [nbEncode_length, hpadlen]

/-- C2 witness: the amended theorem applied to the ASCII name "3DS"
(fixed by upper-casing, so `upper = id` matches the real mapping). -/
theorem nb_name_ok_witness :
    ∃ bs, nb_name (fun s => s) [0x33, 0x44, 0x53] 0x20 = some bs ∧ bs.length = 32 ∧
      bs = nbEncode (nbPadded (fun s => s) [0x33, 0x44, 0x53] 0x20) :=
  nb_name_ok (fun s => s) [0x33, 0x44, 0x53] (by decide)

/-! ## Theorems for C4 -/

/-- C4.  A read AndX response with non-zero NT status yields empty bytes
without raising, a response whose unpacked data length is 0 yields empty
bytes, and in either case the get_file loop stops at that iteration,
returning the total accumulated so far. -/
theorem read_eof_handling (st : Nat) (resp : List Nat)
    (rest : List (Nat × List Nat)) (total : Nat) :
    (st ≠ 0 → readResult st resp = some [] ∧
      getFileLoop ((st, resp) :: rest) total = some total) ∧
    (∀ doff, st = 0 → read2x16 resp 43 = some (0, doff) →
      readResult st resp = some [] ∧
      getFileLoop ((st, resp) :: rest) total = some total) := by
  constructor
  · intro hst
    have hr : readResult st resp = some [] := by
      unfold readResult
      simp [hst]
    refine ⟨hr, ?_⟩
    show (match readResult st resp with
      | none => none
      | some chunk =>
        if chunk = [] then some total else getFileLoop rest (total + chunk.length)) = some total
    rw [hr]
    rfl
  · intro doff hst hunpack
    have hr : readResult st resp = some [] := by
      unfold readResult
      rw [if_neg (by omega), hunpack]
      show some (pySlice resp doff 0) = some []
      simp [pySlice]
    refine ⟨hr, ?_⟩
    show (match readResult st resp with
      | none => none
      | some chunk =>
        if chunk = [] then some total else getFileLoop rest (total + chunk.length)) = some total
    rw [hr]
    rfl

/-- C4 witness: a status-0x0103 error response and a zero-length success
response both terminate the loop with the accumulated total. -/
theorem read_eof_handling_witness :
    (readResult 259 [] = some [] ∧ getFileLoop [(259, [])] 7 = some 7) ∧
    (readResult 0 (List.replicate 47 0) = some [] ∧
      getFileLoop [(0, List.replicate 47 0)] 7 = some 7) :=
  ⟨(read_eof_handling 259 [] [] 7).1 (by decide),
   (read_eof_handling 0 (List.replicate 47 0) [] 7).2 0 rfl (by decide)⟩

/-! ## C5: directory-listing record parser

Transcribed from `src/n3ds_smb/client.py` lines 291-313
(`N3DSClient._parse_dir`).  Python str values are embedded as lists of
Unicode code points; `bytes.decode("utf-16le")` is modelled by
`decodeUtf16le`, whose `none` is the `UnicodeDecodeError` branch. -/

/-- Group a byte list into little-endian 16-bit units; `none` on odd
length (the truncated-data decode error). -/
def bytesToUnits : List Nat → Option (List Nat)
  | [] => some []
  | [_] => none
  | a :: b :: rest =>
    match bytesToUnits rest with
    | none => none
    | some us => some ((a + 256 * b) :: us)

/-- Combine UTF-16 code units into code points: a high surrogate must be
followed by a low surrogate, a lone low surrogate is an error, any other
unit is its own code point. -/
def combineUnits : List Nat → Option (List Nat)
  | [] => some []
  | u :: rest =>
    if 0xD800 ≤ u ∧ u < 0xDC00 then
      match rest with
      | [] => none
      | v :: rest2 =>
        if 0xDC00 ≤ v ∧ v < 0xE000 then
          match combineUnits rest2 with
          | none => none
          | some cs => some ((0x10000 + (u - 0xD800) * 0x400 + (v - 0xDC00)) :: cs)
        else none
    else if 0xDC00 ≤ u ∧ u < 0xE000 then none
    else
      match combineUnits rest with
      | none => none
      | some cs => some (u :: cs)

/-- Model of Python `bytes.decode("utf-16le")`, producing the code
points of the decoded string or `none` on a decode error. -/
def decodeUtf16le (bs : List Nat) : Option (List Nat) :=
  match bytesToUnits bs with
  | none => none
  | some us => combineUnits us

/-- Model of `raw.endswith(b"\x00\x00")` followed by `raw = raw[:-2]`
(client.py lines 301-302). -/
def stripTrail (raw : List Nat) : List Nat :=
  if raw.reverse.take 2 = [0, 0] then raw.dropLast.dropLast else raw

/-- ASCII code of the lower-case hex digit for a nibble. -/
def hexDigit (d : Nat) : Nat := if d < 10 then 48 + d else 87 + d

/-- Code points of `raw.hex()`: two lower-case hex digits per byte. -/
def hexCodes (l : List Nat) : List Nat :=
  l.flatMap fun b => [hexDigit (b / 16), hexDigit (b % 16)]

/-- Name rendering of client.py lines 301-306: strip one trailing
double-NUL if present, decode as UTF-16LE, and fall back to the hex
escape of the (stripped) raw bytes when decoding raises. -/
def renderName (raw : List Nat) : List Nat :=
  match decodeUtf16le (stripTrail raw) with
  | some cps => cps
  | none => hexCodes (stripTrail raw)

/-- A directory entry as built by `_parse_dir` (client.py line 308). -/
structure DirEntry where
  name : List Nat
  size : Nat
  attr : Nat
  isDir : Bool
  deriving Repr, DecidableEq

/-- One record of `_parse_dir` at offset `off`, assuming the 94-byte
guard already passed: `next_offset` at `off`, 64-bit size at `off+40`,
attributes and name length at `off+56`, raw name bytes at `off+94`. -/
def dirRecordEntry (data : List Nat) (off : Nat) : Nat → Nat → DirEntry :=
  fun attr nlen =>
    { name := renderName (pySlice data (off + 94) nlen)
      size := u64val data (off + 40)
      attr := attr
      isDir := decide (attr &&& 0x10 ≠ 0) }

/-- The `_parse_dir` loop (client.py lines 293-313), structurally
recursing on the remaining iteration count of `for _ in range(count)`.
`none` models an unpack exception (never reached: every unpack is
covered by the `off + 94 > len(data)` guard). -/
def parseDirGo (data : List Nat) : Nat → Nat → Option (List DirEntry)
  | 0, _ => some []
  | c + 1, off =>
    if data.length < off + 94 then some []
    else
      match readU32 data off, readU64 data (off + 40),
            readU32 data (off + 56), readU32 data (off + 60) with
      | some nxt, some _, some attr, some nlen =>
        let e := dirRecordEntry data off attr nlen
        if nxt = 0 then some [e]
        else
          match parseDirGo data c (off + nxt) with
          | none => none
          | some es => some (e :: es)
      | _, _, _, _ => none

/-- `N3DSClient._parse_dir(data, count)`. -/
def parse_dir (data : List Nat) (count : Nat) : Option (List DirEntry) :=
  parseDirGo data count 0

/-- The 94-byte guard: when the fixed record head would extend past the
buffer, the loop breaks and returns the entries so far. -/
theorem parseDirGo_guard (data : List Nat) (c off : Nat)
    (hg : data.length < off + 94) : parseDirGo data c off = some [] := by
  cases c with
  | zero => rfl
  | succ c => simp [parseDirGo, hg]

/-- A record with `next_offset = 0` is emitted and ends the walk. -/
theorem parseDirGo_step_zero (data : List Nat) (c off : Nat)
    (hin : off + 94 ≤ data.length) (hz : u32val data off = 0) :
    parseDirGo data (c + 1) off =
      some [dirRecordEntry data off (u32val data (off + 56)) (u32val data (off + 60))] := by
  have h1 : readU32 data off = some (u32val data off) := by
    unfold readU32; rw [if_pos (by omega)]
  have h2 : readU64 data (off + 40) = some (u64val data (off + 40)) := by
    unfold readU64; rw [if_pos (by omega)]
  have h3 : readU32 data (off + 56) = some (u32val data (off + 56)) := by
    unfold readU32; rw [if_pos (by omega)]
  have h4 : readU32 data (off + 60) = some (u32val data (off + 60)) := by
    unfold readU32; rw [if_pos (by omega)]
  simp only [parseDirGo]
  rw [if_neg (by omega), h1, h2, h3, h4]
  simp [hz]

/-- A record with positive `next_offset` is emitted and the walk
continues at `off + next_offset` with one fewer permitted entry. -/
theorem parseDirGo_step_pos (data : List Nat) (c off : Nat)
    (hin : off + 94 ≤ data.length) (hnz : u32val data off ≠ 0) :
    parseDirGo data (c + 1) off =
      match parseDirGo data c (off + u32val data off) with
      | none => none
      | some es =>
        some (dirRecordEntry data off (u32val data (off + 56)) (u32val data (off + 60)) :: es) := by
  have h1 : readU32 data off = some (u32val data off) := by
    unfold readU32; rw [if_pos (by omega)]
  have h2 : readU64 data (off + 40) = some (u64val data (off + 40)) := by
    unfold readU64; rw [if_pos (by omega)]
  have h3 : readU32 data (off + 56) = some (u32val data (off + 56)) := by
    unfold readU32; rw [if_pos (by omega)]
  have h4 : readU32 data (off + 60) = some (u32val data (off + 60)) := by
    unfold readU32; rw [if_pos (by omega)]
  simp only [parseDirGo]
  rw [if_neg (by omega), h1, h2, h3, h4]
  simp [hnz]

/-- The record walk never raises and emits at most `c` entries. -/
theorem parseDirGo_safe (data : List Nat) : ∀ (c off : Nat),
    ∃ es, parseDirGo data c off = some es ∧ es.length ≤ c := by
  intro c
  induction c with
  | zero => intro off; exact ⟨[], rfl, Nat.le_refl 0⟩
  | succ c ih =>
    intro off
    by_cases hg : data.length < off + 94
    · exact ⟨[], parseDirGo_guard data (c + 1) off hg, by simp⟩
    · by_cases hz : u32val data off = 0
      · refine ⟨[dirRecordEntry data off (u32val data (off + 56)) (u32val data (off + 60))],
          parseDirGo_step_zero data c off (by omega) hz, by simp⟩
      · obtain ⟨es, hes, hlen⟩ := ih (off + u32val data off)
        refine ⟨dirRecordEntry data off (u32val data (off + 56)) (u32val data (off + 60)) :: es,
          ?_, by simp; omega⟩
        rw [parseDirGo_step_pos data c off (by omega) hz, hes]

/-- Stripping removes exactly one trailing double-NUL. -/
theorem stripTrail_concat (l : List Nat) : stripTrail (l ++ [0, 0]) = l := by
  unfold stripTrail
  rw [if_pos (by simp)]
  simp

/-- C5.  For every response data block and declared entry count the
directory parser terminates without raising, emits at most `count`
entries, stops when a record head would extend past the buffer, stops
after a record whose `next_offset` is 0, strips one trailing double-NUL
from a raw name, and falls back to the hex escape of the raw bytes when
UTF-16LE decoding fails. -/
theorem parse_dir_ok (data : List Nat) (count : Nat) :
    (∃ es, parse_dir data count = some es ∧ es.length ≤ count) ∧
    (∀ c off, data.length < off + 94 → parseDirGo data c off = some []) ∧
    (∀ c off, off + 94 ≤ data.length → u32val data off = 0 →
      ∃ e, parseDirGo data (c + 1) off = some [e]) ∧
    (∀ l, stripTrail (l ++ [0, 0]) = l) ∧
    (∀ raw, decodeUtf16le (stripTrail raw) = none →
      renderName raw = hexCodes (stripTrail raw)) := by
  refine ⟨parseDirGo_safe data count 0, ?_, ?_, stripTrail_concat, ?_⟩
  · intro c off hg
    exact parseDirGo_guard data c off hg
  · intro c off hin hz
    exact ⟨_, parseDirGo_step_zero data c off hin hz⟩
  · intro raw h
    unfold renderName
    rw [h]

/-- C5 witness: the theorem applied to a concrete 94-byte all-zero block
(one empty-named record with `next_offset = 0`), an out-of-bounds start,
a double-NUL-terminated raw name, and an undecodable single byte. -/
theorem parse_dir_ok_witness :
    (∃ es, parse_dir (List.replicate 94 0) 1 = some es ∧ es.length ≤ 1) ∧
    parseDirGo [] 3 0 = some [] ∧
    (∃ e, parseDirGo (List.replicate 94 0) 1 0 = some [e]) ∧
    stripTrail [1, 2, 0, 0] = [1, 2] ∧
    renderName [255] = hexCodes (stripTrail [255]) :=
  ⟨(parse_dir_ok (List.replicate 94 0) 1).1,
   (parse_dir_ok [] 0).2.1 3 0 (by decide),
   (parse_dir_ok (List.replicate 94 0) 1).2.2.1 0 0 (by decide) (by decide),
   (parse_dir_ok [] 0).2.2.2.1 [1, 2],
   (parse_dir_ok [] 0).2.2.2.2 [255] (by decide)⟩

/-! ## C6: filesystem-size query derivation

Transcribed from `src/n3ds_smb/client.py` lines 236-244: after the
TRANS2 exchange, `if st or len(dd) < 24: return None`, then
`struct.unpack_from("<QQiI", dd)` - note the lower-case `i`: the code
reads the sectors-per-unit field as a SIGNED 32-bit integer although its
own docstring declares `SectorsPerAllocationUnit(I)` (unsigned).
Python integers are unbounded, so the products are modelled in `Int`. -/

/-- `disk_info` post-processing of the TRANS2 status and data block,
returning `(total_bytes, free_bytes)` or `none` (Python `None`). -/
def disk_info (st : Nat) (dd : List Nat) : Option (Int × Int) :=
  if st ≠ 0 ∨ dd.length < 24 then none
  else
    match readU64 dd 0, readU64 dd 8, readI32 dd 16, readU32 dd 20 with
    | some total_au, some avail_au, some sec, some bps =>
      some ((total_au : Int) * sec * (bps : Int), (avail_au : Int) * sec * (bps : Int))
    | _, _, _, _ => none

/-- Data block with `total_alloc_units = 1`, `avail_alloc_units = 1`,
`sectors_per_unit = 0x80000000` on the wire, `bytes_per_sector = 1`. -/
def diskInfoBugInput : List Nat :=
  [1, 0, 0, 0, 0, 0, 0, 0,
   1, 0, 0, 0, 0, 0, 0, 0,
   0, 0, 0, 0x80,
   1, 0, 0, 0]

/-- Data block for the specification example
`(total_au, avail_au, sec, bps) = (100, 30, 8, 512)`. -/
def diskInfoSpecInput : List Nat :=
  [100, 0, 0, 0, 0, 0, 0, 0,
   30, 0, 0, 0, 0, 0, 0, 0,
   8, 0, 0, 0,
   0, 2, 0, 0]

/-- C6.  On the specification example the code derives the claimed
totals, but on a sectors-per-unit wire value of 0x80000000 the signed
`"<QQiI"` unpack makes the code return negative byte counts instead of
the claimed product with the unsigned field value: the code contradicts
its own docstring, which declares the field as unsigned `(I)`. -/
theorem disk_info_signed_unpack_bug :
    disk_info 0 diskInfoSpecInput = some (409600, 122880) ∧
    u32val diskInfoBugInput 16 = 2147483648 ∧
    disk_info 0 diskInfoBugInput = some (-2147483648, -2147483648) ∧
    ((1 : Int) * 2147483648 * 1 ≠ -2147483648) := by
  refine ⟨by decide, by decide, by decide, by decide⟩

/-! ## C7: rename message body and second-string alignment

Transcribed from `src/n3ds_smb/client.py` lines 206-220
(`N3DSClient.rename`).  Python `str.encode("utf-16le")` is modelled on
code-point lists; `none` models the `UnicodeEncodeError` raised for a
lone surrogate. -/

/-- UTF-16LE encoding of one code point: 2 bytes below 0x10000, a
4-byte surrogate pair above, error on a lone surrogate code point. -/
def encCp (c : Nat) : Option (List Nat) :=
  if 0xD800 ≤ c ∧ c < 0xE000 then none
  else if c < 0x10000 then some [c % 256, c / 256]
  else
    some [(0xD800 + (c - 0x10000) / 0x400) % 256, (0xD800 + (c - 0x10000) / 0x400) / 256,
          (0xDC00 + (c - 0x10000) % 0x400) % 256, (0xDC00 + (c - 0x10000) % 0x400) / 256]

/-- Model of `s.encode("utf-16le")`. -/
def utf16leEncode : List Nat → Option (List Nat)
  | [] => some []
  | c :: rest =>
    match encCp c, utf16leEncode rest with
    | some b, some bs => some (b ++ bs)
    | _, _ => none

/-- The rename (0x07) message body from client.py lines 209-217:
`0x04 | old UTF-16LE + 00 00 | 0x04 | pad? | new UTF-16LE + 00 00`,
where the pad byte is inserted when `pos = 37 + len(part1) + 1` is odd. -/
def renameBody (old new : List Nat) : Option (List Nat) :=
  match utf16leEncode old, utf16leEncode new with
  | some oe, some ne =>
    let old_enc := oe ++ [0, 0]
    let new_enc := ne ++ [0, 0]
    let part1 := 4 :: old_enc
    let pos := 37 + part1.length + 1
    let pad : List Nat := if pos % 2 = 1 then [0] else []
    some (part1 ++ (4 :: (pad ++ new_enc)))
  | _, _ => none

/-- A successful UTF-16LE encoding always has even length. -/
theorem utf16leEncode_even (s : List Nat) :
    ∀ bs, utf16leEncode s = some bs → bs.length % 2 = 0 := by
  induction s with
  | nil => intro bs h; cases h; rfl
  | cons c rest ih =>
    intro bs h
    unfold utf16leEncode at h
    unfold encCp at h
    by_cases hs : 0xD800 ≤ c ∧ c < 0xE000
    · rw [if_pos hs] at h; cases h
    · rw [if_neg hs] at h
      by_cases hb : c < 0x10000
      · rw [if_pos hb] at h
        cases hrest : utf16leEncode rest with
        | none => rw [hrest] at h; cases h
        | some bs2 =>
          rw [hrest] at h
          cases h
          have := ih bs2 hrest
          simp [List.length_append]
          omega
      · rw [if_neg hb] at h
        cases hrest : utf16leEncode rest with
        | none => rw [hrest] at h; cases h
        | some bs2 =>
          rw [hrest] at h
          cases h
          have := ih bs2 hrest
          simp [List.length_append]
          omega

/-- C7.  For every encodable pair of old and new paths, the rename body
is buffer-format 0x04, the old path with double-NUL, buffer-format 0x04,
then a pad inserted exactly when the unpadded position of the new
string data (37 + len(part1) + 1 from the message start) is odd, so the
new UTF-16LE data always begins at an even message offset. -/
theorem rename_body_alignment (old new oe ne : List Nat)
    (ho : utf16leEncode old = some oe) (hn : utf16leEncode new = some ne) :
    ∃ pad : List Nat,
      renameBody old new =
        some ((4 :: (oe ++ [0, 0])) ++ (4 :: (pad ++ (ne ++ [0, 0])))) ∧
      (pad = [0] ∨ pad = []) ∧
      (pad = [] ↔ (37 + (4 :: (oe ++ [0, 0])).length + 1) % 2 = 0) ∧
      (37 + (4 :: (oe ++ [0, 0])).length + 1 + pad.length) % 2 = 0 := by
  have heven : oe.length % 2 = 0 := utf16leEncode_even old oe ho
  have hpos : (37 + (4 :: (oe ++ [0, 0])).length + 1) % 2 = 1 := by
    simp [List.length_append]
    omega
  refine ⟨[0], ?_, Or.inl rfl, ?_, ?_⟩
  · unfold renameBody
    rw [ho, hn]
    simp only []
    rw [if_pos ?hc]
    case hc =>
      simp [List.length_append]
      omega
  · constructor
    · intro h; cases h
    · intro h; rw [hpos] at h; cases h
  · simp [List.length_append]
    omega

/-- C7 witness: the theorem applied to the one-character paths "a" and
"b"; the pad byte is inserted and the new data lands on offset 42. -/
theorem rename_body_alignment_witness :
    ∃ pad : List Nat,
      renameBody [97] [98] =
        some ((4 :: ([97, 0] ++ [0, 0])) ++ (4 :: (pad ++ ([98, 0] ++ [0, 0])))) ∧
      (pad = [0] ∨ pad = []) ∧
      (pad = [] ↔ (37 + (4 :: ([97, 0] ++ [0, 0])).length + 1) % 2 = 0) ∧
      (37 + (4 :: ([97, 0] ++ [0, 0])).length + 1 + pad.length) % 2 = 0 :=
  rename_body_alignment [97] [98] [97, 0] [98, 0] (by decide) (by decide)

/-! ## C8: WebDAV error mapping and exception boundaries

Transcribed from `src/n3ds_smb/webdav.py`: `_as_dav_error` (lines
64-73), the try/except-wrapped verb `get_member_names` (lines 250-254)
as representative of the wrapped boundaries, and `get_resource_inst`
(lines 213-222), which calls `_stat` (lines 202-211), and through it
`_listdir_entries` (lines 189-200) and the client, with no enclosing
try/except.  Python exception values are embedded as a closed inductive
covering the `isinstance` classes `_as_dav_error` distinguishes; the
class hierarchy (`FileNotFoundError` and `PermissionError` are
subclasses of `OSError`) is reflected in the match order, which mirrors
the source's check order.  Validation failures in the bridge are raised
directly as `DAVError(HTTP_BAD_REQUEST)` (webdav.py lines 293 and 306)
and pass through the mapping unchanged. -/

/-- HTTP status used by the bridge for bad requests. -/
def HTTP_BAD_REQUEST : Nat := 400

/-- HTTP status used by the bridge for forbidden operations. -/
def HTTP_FORBIDDEN : Nat := 403

/-- HTTP status used by the bridge for missing resources. -/
def HTTP_NOT_FOUND : Nat := 404

/-- HTTP status used by the bridge for internal errors. -/
def HTTP_INTERNAL_ERROR : Nat := 500

/-- Exception classes distinguished by `_as_dav_error`. -/
inductive PyExc where
  | davError (status : Nat)
  | fileNotFound
  | permission
  | osError
  | valueError
  | runtimeError
  deriving Repr, DecidableEq

/-- `_as_dav_error` (webdav.py lines 64-73), returning the status of the
produced `DAVError`: a `DAVError` is returned unchanged, then the
`isinstance` chain maps `FileNotFoundError` to 404, `PermissionError`
to 403, any other `OSError` to 403, and every remaining exception to
500.  Totality of this function is the no-raw-propagation property. -/
def asDavError : PyExc → Nat
  | .davError s => s
  | .fileNotFound => HTTP_NOT_FOUND
  | .permission => HTTP_FORBIDDEN
  | .osError => HTTP_FORBIDDEN
  | .valueError => HTTP_INTERNAL_ERROR
  | .runtimeError => HTTP_INTERNAL_ERROR

/-- Guard of `create_collection` (webdav.py lines 289-293): read-only
mode raises `DAVError(HTTP_FORBIDDEN)`, an empty name raises the
validation error `DAVError(HTTP_BAD_REQUEST)`. -/
def createCollectionGuard (readonly : Bool) (name : List Nat) : Option PyExc :=
  if readonly then some (.davError HTTP_FORBIDDEN)
  else if name = [] then some (.davError HTTP_BAD_REQUEST)
  else none

/-- Predicate for a `DAVError` value: the only exception class WsgiDAV
turns into a proper WebDAV error response; any other exception reaching
the HTTP layer is a raw protocol-level exception. -/
def isDavErrorExc : PyExc → Bool
  | .davError _ => true
  | _ => false

/-- `get_member_names` (webdav.py lines 250-254): the verb body (a
client listdir under the lock) runs inside try/except and any exception
`exc` is re-raised as `_as_dav_error(exc)`.  The outcome of the body is
the oracle parameter. -/
def get_member_names_model (body : Except PyExc (List (List Nat))) :
    Except PyExc (List (List Nat)) :=
  match body with
  | .ok names => .ok names
  | .error exc => .error (.davError (asDavError exc))

/-- Sub-entry record of the bridge (`_Entry`, webdav.py lines 157-161). -/
structure WebDAVEntry where
  name : List Nat
  size : Nat
  isDir : Bool
  deriving Repr, DecidableEq

/-- `get_resource_inst` (webdav.py lines 213-222): the root path "/"
returns the root collection without touching the client; every other
path calls `self._stat`, whose outcome is the oracle parameter, with NO
enclosing try/except, so an exception raised below `_stat` (for example
the `RuntimeError` that `connect` raises inside `_ensure_connected` on
a refused NetBIOS session, client.py line 45) propagates to the HTTP
machinery unconverted. -/
def get_resource_inst_model (path : List Nat)
    (statOutcome : Except PyExc (Option WebDAVEntry)) :
    Except PyExc (Option WebDAVEntry) :=
  if path = [47] then Except.ok (some ⟨[], 0, true⟩)
  else statOutcome

/-- C8 counterexample.  Not every exception reaching a WebDAV verb
boundary is converted: resolving the resource for path "/a" reaches the
client through `_stat` with no try/except, so when the client raises
`RuntimeError` the bridge hands that raw, non-DAV exception to the HTTP
layer. -/
theorem raw_exception_propagates :
    get_resource_inst_model [47, 97] (Except.error PyExc.runtimeError) =
      Except.error PyExc.runtimeError ∧
    isDavErrorExc PyExc.runtimeError = false :=
  ⟨rfl, rfl⟩

/-- C8 (amended).  At the try/except-wrapped verb boundaries the bridge
converts every exception to a DAV error (`get_member_names` is proved
as the representative: a failing body always re-raises a `DAVError`),
with the mapping not-found to 404, permission and OS errors to 403, the
validation error the bridge raises (`DAVError(HTTP_BAD_REQUEST)`, as
for an empty creation name) to 400, and every other exception to 500;
resource resolution, the quota queries and the raw stream read/write
paths are not wrapped, so raw protocol exceptions can propagate there. -/
theorem dav_error_conversion :
    (∀ e, isDavErrorExc (PyExc.davError (asDavError e)) = true) ∧
    (∀ ns, get_member_names_model (Except.ok ns) = Except.ok ns) ∧
    (∀ e, get_member_names_model (Except.error e) =
      Except.error (PyExc.davError (asDavError e))) ∧
    (∀ s, asDavError (.davError s) = s) ∧
    asDavError .fileNotFound = 404 ∧
    asDavError .permission = 403 ∧
    asDavError .osError = 403 ∧
    createCollectionGuard false [] = some (.davError HTTP_BAD_REQUEST) ∧
    asDavError (.davError HTTP_BAD_REQUEST) = 400 ∧
    asDavError .valueError = 500 ∧
    asDavError .runtimeError = 500 :=
  ⟨fun _ => rfl, fun _ => rfl, fun _ => rfl, fun _ => rfl,
   rfl, rfl, rfl, rfl, rfl, rfl, rfl⟩

/-! ## C9: discovery cache refresh

Transcribed from `src/n3ds_smb/discovery.py`: `_save_cache` (lines
234-238) writes `f"{ip} {name}"`, `_done` inside `discover_3ds` (lines
269-273) saves and returns the pair, and `discover_3ds` (lines 257-298)
tries cache, WS-Discovery, then the interactive prompt.  Network and
user interaction are oracle parameters; `none` models the final
`RuntimeError` (and, in the prompt loop, an empty name or an exhausted
input oracle). -/

/-- Contents written by `_save_cache` (discovery.py line 236). -/
def save_cache_content (ip name : String) : String := ip ++ " " ++ name

/-- `_done` (discovery.py lines 269-273): refresh the cache and return
the pair.  Modelled as the pair together with the written contents. -/
def discoveryDone (ip name : String) : (String × String) × String :=
  ((ip, name), save_cache_content ip name)

/-- The `_ask_name` prompt loop (discovery.py lines 246-254) over an
oracle list of user inputs: strip, reject empty with an error, and
re-prompt until the NetBIOS probe accepts the name. -/
def ask_name_loop (probe : String → String → Bool) (ip : String) :
    List String → Option String
  | [] => none
  | raw :: rest =>
    let name := raw.trim
    if name = "" then none
    else if probe ip name then some name
    else ask_name_loop probe ip rest

/-- Strategies 2 and 3 of `discover_3ds` (discovery.py lines 280-298):
WS-Discovery result, then the cached IP revalidated by a port probe and
the interactive prompt. -/
def discoverTail (probe : String → String → Bool) (pOpen : String → Bool)
    (cip : Option String) (wsd : Option (String × String))
    (inputs : List String) : Option ((String × String) × String) :=
  match wsd with
  | some (i, n) => some (discoveryDone i n)
  | none =>
    match cip with
    | some i =>
      if pOpen i then (ask_name_loop probe i inputs).map fun n => discoveryDone i n
      else none
    | none => none

/-- `discover_3ds` (discovery.py lines 257-298) with the cache contents,
NetBIOS probe, WS-Discovery outcome, port probe and user inputs as
oracles; returns the discovered pair and the cache contents written by
`_done`, or `none` for the aggregated discovery failure. -/
def discover_3ds_run (probe : String → String → Bool) (pOpen : String → Bool)
    (cache : Option (String × Option String)) (wsd : Option (String × String))
    (inputs : List String) : Option ((String × String) × String) :=
  match cache with
  | some (i, some n) =>
    if probe i n then some (discoveryDone i n)
    else discoverTail probe pOpen (some i) wsd inputs
  | some (i, none) => discoverTail probe pOpen (some i) wsd inputs
  | none => discoverTail probe pOpen none wsd inputs

/-- C9 counterexample.  `_save_cache` writes `f"{ip} {name}"`: for the
pair ("1.2.3.4", "3DS") the file contents are exactly "1.2.3.4 3DS",
not "1.2.3.4 3DS\n" - there is no trailing newline. -/
theorem save_cache_no_newline :
    save_cache_content "1.2.3.4" "3DS" = "1.2.3.4 3DS" ∧
    save_cache_content "1.2.3.4" "3DS" ≠ "1.2.3.4 3DS\n" := by
  refine ⟨rfl, by decide⟩

/-- Tail strategies also write the returned pair to the cache. -/
theorem discoverTail_saves (probe : String → String → Bool)
    (pOpen : String → Bool) (cip : Option String)
    (wsd : Option (String × String)) (inputs : List String)
    (r : (String × String) × String)
    (h : discoverTail probe pOpen cip wsd inputs = some r) :
    r.2 = r.1.1 ++ " " ++ r.1.2 := by
  unfold discoverTail at h
  split at h
  next i n =>
    cases h
    rfl
  next =>
    split at h
    next i =>
      split at h
      next =>
        cases hl : ask_name_loop probe i inputs with
        | none => rw [hl] at h; cases h
        | some n =>
          rw [hl, Option.map_some'] at h
          cases h
          rfl
      next => cases h
    next => cases h

/-- C9 (amended).  After every successful discovery run, whichever
strategy produced the result, the cache file is written with contents
exactly `"<ip> <name>"` for the returned pair - with no trailing
newline. -/
theorem discovery_refreshes_cache (probe : String → String → Bool)
    (pOpen : String → Bool) (cache : Option (String × Option String))
    (wsd : Option (String × String)) (inputs : List String)
    (r : (String × String) × String)
    (h : discover_3ds_run probe pOpen cache wsd inputs = some r) :
    r.2 = r.1.1 ++ " " ++ r.1.2 := by
  unfold discover_3ds_run at h
  split at h
  next i n =>
    split at h
    next =>
      cases h
      rfl
    next => exact discoverTail_saves probe pOpen (some i) wsd inputs r h
  next i => exact discoverTail_saves probe pOpen (some i) wsd inputs r h
  next => exact discoverTail_saves probe pOpen none wsd inputs r h

/-- C9 witness: a WS-Discovery hit for ("1.2.3.4", "3DS") writes the
cache record "1.2.3.4 3DS". -/
theorem discovery_refreshes_cache_witness :
    ("1.2.3.4 3DS" : String) = "1.2.3.4" ++ " " ++ "3DS" :=
  discovery_refreshes_cache (fun _ _ => false) (fun _ => false) none
    (some ("1.2.3.4", "3DS")) [] (("1.2.3.4", "3DS"), "1.2.3.4 3DS") (by decide)

/-! ## C10: listdir failure paths

Transcribed from `src/n3ds_smb/client.py` lines 161-167 (`listdir`) and
279-289 (the response side of `_trans2`). -/

/-- Response side of `_trans2` (client.py lines 286-289): non-zero
status or a word count below 10 yields `(status, b"", b"")`; otherwise
the parameter and data blocks are sliced at the offsets read from the
`"<8H"` unpack at offset 33.  `none` models the IndexError or unpack
error on a too-short zero-status response. -/
def trans2_post (status : Nat) (resp : List Nat) : Option (Nat × List Nat × List Nat) :=
  if status ≠ 0 then some (status, [], [])
  else
    match resp.get? 32 with
    | none => none
    | some wc =>
      if wc < 10 then some (status, [], [])
      else
        if 33 + 16 ≤ resp.length then
          some (status, pySlice resp (u16val resp 41) (u16val resp 39),
                pySlice resp (u16val resp 47) (u16val resp 45))
        else none

/-- `listdir` after the TRANS2 exchange (client.py lines 164-167): an
empty list when the parameter block is shorter than 8 bytes, otherwise
`_parse_dir` on the data block with the declared entry count. -/
def listdir_post (status : Nat) (resp : List Nat) : Option (List DirEntry) :=
  match trans2_post status resp with
  | none => none
  | some (_, pp, dd) =>
    if pp.length < 8 then some [] else parse_dir dd (u16val pp 2)

/-- C10.  A non-zero NT status on the FIND_FIRST2 exchange, or a
response parameter block shorter than 8 bytes, makes listdir return the
empty list instead of raising. -/
theorem listdir_failure_empty (status : Nat) (resp : List Nat) :
    (status ≠ 0 → listdir_post status resp = some []) ∧
    (∀ st pp dd, trans2_post status resp = some (st, pp, dd) → pp.length < 8 →
      listdir_post status resp = some []) := by
  constructor
  · intro h
    unfold listdir_post trans2_post
    rw [if_pos h]
    rfl
  · intro st pp dd htr hlen
    unfold listdir_post
    rw [htr]
    show (if pp.length < 8 then some [] else parse_dir dd (u16val pp 2)) = some []
    rw [if_pos hlen]

/-- C10 witness: a status-only failure and a zero-status response whose
word count is below 10 (empty parameter block) both list as empty. -/
theorem listdir_failure_empty_witness :
    listdir_post 0xC0000022 [] = some [] ∧
    listdir_post 0 (List.replicate 32 0 ++ [5]) = some [] :=
  ⟨(listdir_failure_empty 0xC0000022 []).1 (by decide),
   (listdir_failure_empty 0 (List.replicate 32 0 ++ [5])).2 0 [] [] (by decide) (by decide)⟩

/-- C3 witness: the first two calls from a fresh transport are distinct
and in range, and the call after call 65535 (which returns 0xFFFF)
returns 1. -/
theorem mid_generator_ok_witness :
    (1 ≤ midState 1 ∧ midState 1 ≤ 0xFFFF) ∧
    midState 1 ≠ midState 2 ∧
    midState 65536 = 1 :=
  ⟨(mid_generator_ok 0 0 1 2).1,
   (mid_generator_ok 0 0 1 2).2.1 (by decide) (by decide) (by decide),
   (mid_generator_ok 65534 0 1 2).2.2
     (by show midState (65534 + 1) = 0xFFFF; rw [midState_closed])⟩
